import Mathlib

/-!
Verification development for the Atmospheric-Harvester weather core.

This file shallowly embeds the parts of the repository relevant to the
checked properties:

* `game/weather_events.py` — the weather-event engine
  (`WeatherEventManager`, `WeatherEvent`, detection, expiry, modifiers,
  statistics);
* `network/weather_service.py` — the aggregator (`WeatherService`),
  its geographic router `_is_us_location`, its merge `_smart_merge`
  and the fallback logic of `get_weather`;
* `network/nws_client.py` — the station-scanning part of
  `NWSClient.get_weather` and the null-temperature rejection of
  `_parse_observation`;
* `network/gfs_client.py` — cycle resolution, cache keys and the
  age-based cache validity of `GFSClient`.

Numeric values are modelled as rationals (`ℚ`); the wall clock
(`time.time()` / `datetime.now(timezone.utc)`) is threaded explicitly as a
parameter `now : ℚ` (seconds); the one random draw of the aurora check is
threaded as a parameter `rand : ℚ`; network I/O is threaded as explicit
oracle arguments.  Python lists become Lean lists, Python dicts become
association lists over `String`.
-/

namespace AtmosphericHarvester

/-- `EventSeverity` from `game/weather_events.py`. -/
inductive EventSeverity where
  | MINOR
  | MODERATE
  | SEVERE
  | EXTREME
deriving DecidableEq, Repr

/-- `EventType` from `game/weather_events.py` (12 kinds). -/
inductive EventType where
  | THUNDERSTORM
  | HEATWAVE
  | BLIZZARD
  | DROUGHT
  | WINDSTORM
  | DUST_STORM
  | FOG
  | TORNADO_WARNING
  | HURRICANE
  | COLD_SNAP
  | FLASH_FLOOD
  | AURORA
deriving DecidableEq, Repr

/-- The `WeatherEvent` dataclass from `game/weather_events.py`. -/
structure WeatherEvent where
  uid : String
  event_type : EventType
  severity : EventSeverity
  start_time : ℚ
  duration : ℚ
  description : String
  warning_issued : Bool := false
  wind_modifier : ℚ := 1
  solar_modifier : ℚ := 1
  hydro_modifier : ℚ := 1
deriving DecidableEq, Repr

/-- `WeatherEvent.is_active`: `elapsed = now - start_time < duration`. -/
def WeatherEvent.is_active (e : WeatherEvent) (now : ℚ) : Bool :=
  now - e.start_time < e.duration

/-- One NOAA alert as consumed by `check_for_events`
(`alert.get('event')`, `alert.get('description')`). -/
structure Alert where
  event : String
  description : String
deriving DecidableEq, Repr

/-- The snapshot fields `check_for_events` reads from `game_state`. -/
structure GameState where
  rain_vol : ℚ
  weather_code : ℤ
  cape : ℚ
  temp_c : ℚ
  wind_speed : ℚ
  visibility : ℚ
  humidity : ℚ
  lat : ℚ
  is_day : Bool
  alerts : List Alert
deriving DecidableEq, Repr

/-- The mutable state of `WeatherEventManager`. -/
structure WeatherEventManager where
  active_events : List WeatherEvent
  event_history : List WeatherEvent
  max_history : ℕ
  last_rain_time : ℚ
  heatwave_start_time : ℚ
  cold_start_time : ℚ
  frequency_multiplier : ℚ
deriving DecidableEq, Repr

/-- `WeatherEventManager.__init__`, with the construction-time clock value
`t0` standing for the `time.time()` stored in `last_rain_time`. -/
def WeatherEventManager.init (t0 : ℚ) : WeatherEventManager :=
  { active_events := []
    event_history := []
    max_history := 20
    last_rain_time := t0
    heatwave_start_time := 0
    cold_start_time := 0
    frequency_multiplier := 1 }

/-- `set_frequency_multiplier`: `max(1.0, min(3.0, multiplier))`. -/
def WeatherEventManager.set_frequency_multiplier
    (m : WeatherEventManager) (multiplier : ℚ) : WeatherEventManager :=
  { m with frequency_multiplier := max 1 (min 3 multiplier) }

/-- `_has_active_event`: any active event of this type. -/
def WeatherEventManager.has_active_event
    (m : WeatherEventManager) (ty : EventType) : Bool :=
  m.active_events.any (fun e => e.event_type == ty)

/-- Python `needle in haystack` on lists of characters. -/
def charsLeadIn : List Char → List Char → Bool
  | [], _ => true
  | _ :: _, [] => false
  | a :: as, b :: bs => a == b && charsLeadIn as bs

/-- Python substring containment `needle in hay` for strings. -/
def strContains (hay needle : String) : Bool :=
  hay.toList.tails.any (fun t => charsLeadIn needle.toList t)

/-- `_determine_thunderstorm_severity`. -/
def determine_thunderstorm_severity (state : GameState) : EventSeverity :=
  if state.cape > 4000 ∨ state.weather_code ≥ 99 then .EXTREME
  else if state.cape > 2500 ∨ state.weather_code ≥ 97 then .SEVERE
  else if state.cape > 1500 then .MODERATE
  else .MINOR

/-- `_determine_heatwave_severity`. -/
def determine_heatwave_severity (state : GameState) : EventSeverity :=
  if state.temp_c > 45 then .EXTREME
  else if state.temp_c > 40 then .SEVERE
  else if state.temp_c > 37 then .MODERATE
  else .MINOR

/-- `_determine_blizzard_severity`. -/
def determine_blizzard_severity (state : GameState) : EventSeverity :=
  if state.wind_speed > 30 then .EXTREME
  else if state.wind_speed > 25 then .SEVERE
  else if state.wind_speed > 20 then .MODERATE
  else .MINOR

/-- `_determine_windstorm_severity`. -/
def determine_windstorm_severity (state : GameState) : EventSeverity :=
  if state.wind_speed > 40 then .EXTREME
  else if state.wind_speed > 35 then .SEVERE
  else if state.wind_speed > 30 then .MODERATE
  else .MINOR

/-- `_determine_cold_snap_severity`. -/
def determine_cold_snap_severity (state : GameState) : EventSeverity :=
  if state.temp_c < -30 then .EXTREME
  else if state.temp_c < -20 then .SEVERE
  else if state.temp_c < -15 then .MODERATE
  else .MINOR

/-- `f"..._{int(time.time())}"` uid suffix. -/
def uidStamp (now : ℚ) : String := toString (Rat.floor now)

/-- `_create_thunderstorm`. -/
def create_thunderstorm (severity : EventSeverity) (now : ℚ) : WeatherEvent :=
  let mods : ℚ × ℚ × ℚ :=
    match severity with
    | .MINOR => (1.2, 0.8, 1.3)
    | .MODERATE => (1.3, 0.7, 1.5)
    | .SEVERE => (1.4, 0.5, 1.8)
    | .EXTREME => (1.5, 0.3, 2.0)
  let dur : ℚ :=
    match severity with
    | .MINOR => 1800
    | .MODERATE => 3600
    | .SEVERE => 5400
    | .EXTREME => 7200
  { uid := "thunderstorm_" ++ uidStamp now
    event_type := .THUNDERSTORM
    severity := severity
    start_time := now
    duration := dur
    description := "Thunderstorm activity detected! Lightning, heavy rain, and strong winds."
    wind_modifier := mods.1
    solar_modifier := mods.2.1
    hydro_modifier := mods.2.2 }

/-- `_create_heatwave`. -/
def create_heatwave (severity : EventSeverity) (now : ℚ) : WeatherEvent :=
  let mods : ℚ × ℚ × ℚ :=
    match severity with
    | .MINOR => (0.9, 1.2, 0.8)
    | .MODERATE => (0.8, 1.4, 0.7)
    | .SEVERE => (0.7, 1.6, 0.6)
    | .EXTREME => (0.6, 1.8, 0.5)
  { uid := "heatwave_" ++ uidStamp now
    event_type := .HEATWAVE
    severity := severity
    start_time := now
    duration := 14400
    description := "Extreme heat warning! Solar panels boosted but overall efficiency reduced."
    wind_modifier := mods.1
    solar_modifier := mods.2.1
    hydro_modifier := mods.2.2 }

/-- `_create_blizzard`. -/
def create_blizzard (severity : EventSeverity) (now : ℚ) : WeatherEvent :=
  let mods : ℚ × ℚ × ℚ :=
    match severity with
    | .MINOR => (0.8, 0.5, 1.1)
    | .MODERATE => (0.7, 0.4, 1.2)
    | .SEVERE => (0.5, 0.2, 1.3)
    | .EXTREME => (0.3, 0.1, 1.5)
  { uid := "blizzard_" ++ uidStamp now
    event_type := .BLIZZARD
    severity := severity
    start_time := now
    duration := 10800
    description := "Blizzard conditions! Heavy snow and wind reducing visibility."
    wind_modifier := mods.1
    solar_modifier := mods.2.1
    hydro_modifier := mods.2.2 }

/-- `_create_windstorm`. -/
def create_windstorm (severity : EventSeverity) (now : ℚ) : WeatherEvent :=
  let mods : ℚ × ℚ × ℚ :=
    match severity with
    | .MINOR => (1.4, 0.9, 1.0)
    | .MODERATE => (1.6, 0.8, 1.0)
    | .SEVERE => (1.8, 0.7, 1.0)
    | .EXTREME => (2.0, 0.6, 1.0)
  { uid := "windstorm_" ++ uidStamp now
    event_type := .WINDSTORM
    severity := severity
    start_time := now
    duration := 5400
    description := "High winds detected! Turbines boosted but solar panels affected."
    wind_modifier := mods.1
    solar_modifier := mods.2.1
    hydro_modifier := mods.2.2 }

/-- `_create_drought` (uses `modifiers.get(severity, (1.0, 1.0, 0.5))`). -/
def create_drought (severity : EventSeverity) (now : ℚ) : WeatherEvent :=
  let mods : ℚ × ℚ × ℚ :=
    match severity with
    | .MODERATE => (1.0, 1.1, 0.3)
    | .SEVERE => (1.0, 1.2, 0.1)
    | _ => (1.0, 1.0, 0.5)
  { uid := "drought_" ++ uidStamp now
    event_type := .DROUGHT
    severity := severity
    start_time := now
    duration := 86400
    description := "Drought conditions! No rainfall, hydro collectors severely impacted."
    wind_modifier := mods.1
    solar_modifier := mods.2.1
    hydro_modifier := mods.2.2 }

/-- `_create_dust_storm`. -/
def create_dust_storm (severity : EventSeverity) (now : ℚ) : WeatherEvent :=
  { uid := "dust_storm_" ++ uidStamp now
    event_type := .DUST_STORM
    severity := severity
    start_time := now
    duration := 7200
    description := "Dust storm reducing visibility! Solar panels heavily affected."
    wind_modifier := 1.2
    solar_modifier := 0.4
    hydro_modifier := 0.8 }

/-- `_create_fog`. -/
def create_fog (severity : EventSeverity) (now : ℚ) : WeatherEvent :=
  { uid := "fog_" ++ uidStamp now
    event_type := .FOG
    severity := severity
    start_time := now
    duration := 5400
    description := "Dense fog! Low visibility reducing solar efficiency."
    wind_modifier := 0.8
    solar_modifier := 0.6
    hydro_modifier := 1.1 }

/-- `_create_tornado_warning`. -/
def create_tornado_warning (severity : EventSeverity) (now : ℚ) : WeatherEvent :=
  { uid := "tornado_" ++ uidStamp now
    event_type := .TORNADO_WARNING
    severity := severity
    start_time := now
    duration := 1800
    description := "TORNADO WARNING! All machines offline for safety!"
    wind_modifier := 0.0
    solar_modifier := 0.0
    hydro_modifier := 0.0 }

/-- `_create_hurricane`. -/
def create_hurricane (severity : EventSeverity) (now : ℚ) : WeatherEvent :=
  { uid := "hurricane_" ++ uidStamp now
    event_type := .HURRICANE
    severity := severity
    start_time := now
    duration := 21600
    description := "HURRICANE! Extreme wind and rain! Massive hydro boost but high risk!"
    wind_modifier := 0.5
    solar_modifier := 0.2
    hydro_modifier := 2.5 }

/-- `_create_cold_snap`. -/
def create_cold_snap (severity : EventSeverity) (now : ℚ) : WeatherEvent :=
  let mods : ℚ × ℚ × ℚ :=
    match severity with
    | .MINOR => (0.9, 0.8, 0.9)
    | .MODERATE => (0.8, 0.7, 0.8)
    | .SEVERE => (0.7, 0.6, 0.7)
    | .EXTREME => (0.5, 0.4, 0.6)
  { uid := "cold_snap_" ++ uidStamp now
    event_type := .COLD_SNAP
    severity := severity
    start_time := now
    duration := 14400
    description := "Extreme cold! All systems impacted by freezing temperatures."
    wind_modifier := mods.1
    solar_modifier := mods.2.1
    hydro_modifier := mods.2.2 }

/-- `_create_flash_flood`. -/
def create_flash_flood (severity : EventSeverity) (now : ℚ) : WeatherEvent :=
  { uid := "flash_flood_" ++ uidStamp now
    event_type := .FLASH_FLOOD
    severity := severity
    start_time := now
    duration := 3600
    description := "FLASH FLOOD! Extreme rainfall! Massive water collection!"
    wind_modifier := 0.7
    solar_modifier := 0.3
    hydro_modifier := 3.0 }

/-- `_create_aurora`. -/
def create_aurora (severity : EventSeverity) (now : ℚ) : WeatherEvent :=
  { uid := "aurora_" ++ uidStamp now
    event_type := .AURORA
    severity := severity
    start_time := now
    duration := 10800
    description := "Aurora Borealis! Rare atmospheric phenomenon boosting energy production!"
    wind_modifier := 1.2
    solar_modifier := 1.5
    hydro_modifier := 1.1 }

/-- The alert-name classification of `check_for_events` (the ordered
substring tests over `alert.get('event', '').lower()`), returning the
detected type and the severity chosen for it (`SEVERE` by default). -/
def classify_alert (event_name : String) : Option (EventType × EventSeverity) :=
  if strContains event_name "thunderstorm" then
    some (.THUNDERSTORM, .SEVERE)
  else if strContains event_name "tornado" then
    some (.TORNADO_WARNING, .EXTREME)
  else if strContains event_name "hurricane" then
    some (.HURRICANE, .EXTREME)
  else if strContains event_name "flood" then
    some (.FLASH_FLOOD, .SEVERE)
  else if strContains event_name "heat" then
    some (.HEATWAVE, .SEVERE)
  else if strContains event_name "freeze" ∨ strContains event_name "cold" then
    some (.COLD_SNAP, .SEVERE)
  else if strContains event_name "winter" then
    if strContains event_name "storm" ∨ strContains event_name "warning" then
      some (.BLIZZARD, .SEVERE)
    else
      some (.COLD_SNAP, .MINOR)
  else if strContains event_name "blizzard" ∨
      (strContains event_name "snow" ∧ strContains event_name "warning") then
    some (.BLIZZARD, .SEVERE)
  else if strContains event_name "wind" ∧ strContains event_name "warning" then
    some (.WINDSTORM, .SEVERE)
  else if strContains event_name "dust" then
    some (.DUST_STORM, .SEVERE)
  else
    none

/-- The `new_event` dispatch of the alert pass (one `_create_*` per
detected type; the mapping never yields the remaining three types). -/
def create_for_alert (ty : EventType) (severity : EventSeverity) (now : ℚ) :
    Option WeatherEvent :=
  match ty with
  | .THUNDERSTORM => some (create_thunderstorm severity now)
  | .TORNADO_WARNING => some (create_tornado_warning severity now)
  | .HURRICANE => some (create_hurricane severity now)
  | .FLASH_FLOOD => some (create_flash_flood severity now)
  | .HEATWAVE => some (create_heatwave severity now)
  | .COLD_SNAP => some (create_cold_snap severity now)
  | .BLIZZARD => some (create_blizzard severity now)
  | .WINDSTORM => some (create_windstorm severity now)
  | .DUST_STORM => some (create_dust_storm severity now)
  | _ => none

/-- One iteration of the alert loop of `check_for_events`: classify the
alert, skip when an event of the type is already in `active_events`, else
create the event, override its description, force `warning_issued` and
extend its duration to at least one hour. -/
def alert_event (m : WeatherEventManager) (alert : Alert) (now : ℚ) :
    Option WeatherEvent :=
  match classify_alert alert.event.toLower with
  | none => none
  | some (ty, severity) =>
    if m.has_active_event ty then none
    else
      match create_for_alert ty severity now with
      | none => none
      | some e =>
        some { e with
          description := "NOAA Alert: " ++ alert.event
          warning_issued := true
          duration := max e.duration 3600 }

/-- Threshold trigger of branch 1 (THUNDERSTORM):
`weather_code >= 95 or cape > 1500 * freq_adj`. -/
def fires_thunderstorm (gs : GameState) (mult : ℚ) : Bool :=
  gs.weather_code ≥ 95 ∨ gs.cape > 1500 * (1 / mult)

/-- The firing part of branch 2 (HEATWAVE), for a given value of the
per-type dwell timer `heatwave_start_time`:
`temp_c > 35 * freq_adj`, timer set, dwell `> 7200 * freq_adj`. -/
def fires_heatwave (gs : GameState) (hwStart now mult : ℚ) : Bool :=
  gs.temp_c > 35 * (1 / mult) ∧ hwStart ≠ 0 ∧ now - hwStart > 7200 * (1 / mult)

/-- Threshold trigger of branch 3 (BLIZZARD):
heavy-snow weather code and `wind_speed > 15 * freq_adj`. -/
def fires_blizzard (gs : GameState) (mult : ℚ) : Bool :=
  (gs.weather_code == 73 ∨ gs.weather_code == 75 ∨ gs.weather_code == 77 ∨
    gs.weather_code == 85 ∨ gs.weather_code == 86) ∧
  gs.wind_speed > 15 * (1 / mult)

/-- Threshold trigger of branch 4 (WINDSTORM): `wind_speed > 25 * freq_adj`. -/
def fires_windstorm (gs : GameState) (mult : ℚ) : Bool :=
  gs.wind_speed > 25 * (1 / mult)

/-- Threshold trigger of branch 5 (DROUGHT), with `lastRain` the value of
`last_rain_time` after the top-of-call refresh:
`hours_since_rain > 24 * freq_adj and rain_vol == 0`. -/
def fires_drought (gs : GameState) (lastRain now mult : ℚ) : Bool :=
  (now - lastRain) / 3600 > 24 * (1 / mult) ∧ gs.rain_vol = 0

/-- Threshold trigger of branch 6 (DUST STORM): `visibility < 2000 * freq_adj`,
`wind_speed > 15 * freq_adj`, no rain. -/
def fires_dust_storm (gs : GameState) (mult : ℚ) : Bool :=
  gs.visibility < 2000 * (1 / mult) ∧ gs.wind_speed > 15 * (1 / mult) ∧
    gs.rain_vol = 0

/-- Threshold trigger of branch 7 (FOG): `visibility < 1000 * freq_adj` and
`humidity > 90 * freq_adj`. -/
def fires_fog (gs : GameState) (mult : ℚ) : Bool :=
  gs.visibility < 1000 * (1 / mult) ∧ gs.humidity > 90 * (1 / mult)

/-- Threshold trigger of branch 8 (TORNADO WARNING).  The source compares
the *boolean* `extreme_cape` against `5000` (`extreme_cape > 5000`), which
in Python coerces the boolean to 0 or 1. -/
def fires_tornado (gs : GameState) (mult : ℚ) : Bool :=
  let extreme_cape : Bool := gs.cape > 3000 * (1 / mult)
  extreme_cape ∧ gs.weather_code ≥ 95 ∧
    (mult > 1.2 ∨ (if extreme_cape then (1 : ℚ) else 0) > 5000)

/-- Threshold trigger of branch 9 (HURRICANE): `wind_speed > 33 * freq_adj`
and `rain_vol > 50 * freq_adj`. -/
def fires_hurricane (gs : GameState) (mult : ℚ) : Bool :=
  gs.wind_speed > 33 * (1 / mult) ∧ gs.rain_vol > 50 * (1 / mult)

/-- The firing part of branch 10 (COLD SNAP), for a given value of the
dwell timer `cold_start_time`. -/
def fires_cold_snap (gs : GameState) (coldStart now mult : ℚ) : Bool :=
  gs.temp_c < -10 * (1 / mult) ∧ coldStart ≠ 0 ∧
    now - coldStart > 3600 * (1 / mult)

/-- Threshold trigger of branch 11 (FLASH FLOOD): `rain_vol > 100 * freq_adj`. -/
def fires_flash_flood (gs : GameState) (mult : ℚ) : Bool :=
  gs.rain_vol > 100 * (1 / mult)

/-- Threshold trigger of branch 12 (AURORA), with the single
`random.random()` draw threaded as `rand`:
`abs(lat) > 60 * freq_adj`, night, and `rand < 0.001 * mult`. -/
def fires_aurora (gs : GameState) (mult rand : ℚ) : Bool :=
  |gs.lat| > 60 * (1 / mult) ∧ (!gs.is_day) ∧ rand < 0.001 * mult

/-- Result of `check_for_events`: the list of newly created events plus the
updated values of the three mutable trackers. -/
structure CheckResult where
  new_events : List WeatherEvent
  last_rain_time : ℚ
  heatwave_start_time : ℚ
  cold_start_time : ℚ
deriving DecidableEq, Repr

/-- `WeatherEventManager.check_for_events`, with the wall clock `now` and
the aurora random draw `rand` threaded explicitly.  The twelve threshold
branches append (in source order) to the events produced by the alert
pass; `_has_active_event` consults `active_events` only, so events created
earlier in the same call are not seen by later guards. -/
def WeatherEventManager.check_for_events
    (m : WeatherEventManager) (gs : GameState) (now rand : ℚ) : CheckResult :=
  let lastRain := if gs.rain_vol > 0 then now else m.last_rain_time
  -- 0. NOAA alert pass
  let alertEvents := gs.alerts.filterMap (fun a => alert_event m a now)
  let mult := m.frequency_multiplier
  -- 1. THUNDERSTORM
  let e1 := if ¬ m.has_active_event .THUNDERSTORM ∧ fires_thunderstorm gs mult
    then [create_thunderstorm (determine_thunderstorm_severity gs) now] else []
  -- 2. HEATWAVE (dwell timer)
  let hwPair :=
    if ¬ m.has_active_event .HEATWAVE then
      if gs.temp_c > 35 * (1 / mult) then
        if m.heatwave_start_time = 0 then
          (([] : List WeatherEvent), now)
        else if now - m.heatwave_start_time > 7200 * (1 / mult) then
          ([create_heatwave (determine_heatwave_severity gs) now], 0)
        else
          ([], m.heatwave_start_time)
      else
        ([], 0)
    else
      ([], m.heatwave_start_time)
  -- 3. BLIZZARD
  let e3 := if ¬ m.has_active_event .BLIZZARD ∧ fires_blizzard gs mult
    then [create_blizzard (determine_blizzard_severity gs) now] else []
  -- 4. WINDSTORM
  let e4 := if ¬ m.has_active_event .WINDSTORM ∧ fires_windstorm gs mult
    then [create_windstorm (determine_windstorm_severity gs) now] else []
  -- 5. DROUGHT
  let e5 :=
    if ¬ m.has_active_event .DROUGHT ∧ fires_drought gs lastRain now mult then
      [create_drought
        (if (now - lastRain) / 3600 > 72 * (1 / mult) then .SEVERE else .MODERATE)
        now]
    else []
  -- 6. DUST STORM
  let e6 := if ¬ m.has_active_event .DUST_STORM ∧ fires_dust_storm gs mult
    then [create_dust_storm .MODERATE now] else []
  -- 7. FOG
  let e7 := if ¬ m.has_active_event .FOG ∧ fires_fog gs mult
    then [create_fog .MINOR now] else []
  -- 8. TORNADO WARNING
  let e8 := if ¬ m.has_active_event .TORNADO_WARNING ∧ fires_tornado gs mult
    then [create_tornado_warning .EXTREME now] else []
  -- 9. HURRICANE
  let e9 := if ¬ m.has_active_event .HURRICANE ∧ fires_hurricane gs mult
    then [create_hurricane .EXTREME now] else []
  -- 10. COLD SNAP (dwell timer)
  let csPair :=
    if ¬ m.has_active_event .COLD_SNAP then
      if gs.temp_c < -10 * (1 / mult) then
        if m.cold_start_time = 0 then
          (([] : List WeatherEvent), now)
        else if now - m.cold_start_time > 3600 * (1 / mult) then
          ([create_cold_snap (determine_cold_snap_severity gs) now], 0)
        else
          ([], m.cold_start_time)
      else
        ([], 0)
    else
      ([], m.cold_start_time)
  -- 11. FLASH FLOOD
  let e11 := if ¬ m.has_active_event .FLASH_FLOOD ∧ fires_flash_flood gs mult
    then [create_flash_flood .SEVERE now] else []
  -- 12. AURORA
  let e12 := if ¬ m.has_active_event .AURORA ∧ fires_aurora gs mult rand
    then [create_aurora .MINOR now] else []
  { new_events := alertEvents ++ e1 ++ hwPair.1 ++ e3 ++ e4 ++ e5 ++ e6 ++
      e7 ++ e8 ++ e9 ++ csPair.1 ++ e11 ++ e12
    last_rain_time := lastRain
    heatwave_start_time := hwPair.2
    cold_start_time := csPair.2 }

/-- `WeatherEventManager.update`: move expired events to the history, trim
the history to the last `max_history` entries, then run detection and
append the new events (the `dt` argument of the source is unused). -/
def WeatherEventManager.update
    (m : WeatherEventManager) (gs : GameState) (now rand : ℚ) :
    WeatherEventManager :=
  let expired := m.active_events.filter (fun e => ¬ e.is_active now)
  let remaining := m.active_events.filter (fun e => e.is_active now)
  let hist := m.event_history ++ expired
  let hist := if hist.length > m.max_history
    then hist.drop (hist.length - m.max_history) else hist
  let m1 := { m with active_events := remaining, event_history := hist }
  let res := m1.check_for_events gs now rand
  { m1 with
    active_events := remaining ++ res.new_events
    last_rain_time := res.last_rain_time
    heatwave_start_time := res.heatwave_start_time
    cold_start_time := res.cold_start_time }

/-- The per-channel modifier dictionary returned by
`get_active_modifiers`. -/
structure Modifiers where
  wind : ℚ
  solar : ℚ
  hydro : ℚ
deriving DecidableEq, Repr

/-- `get_active_modifiers`: identity when no event is active, otherwise the
running product of each channel over `active_events`. -/
def WeatherEventManager.get_active_modifiers
    (m : WeatherEventManager) : Modifiers :=
  if m.active_events.isEmpty then
    { wind := 1.0, solar := 1.0, hydro := 1.0 }
  else
    { wind := m.active_events.foldl (fun acc e => acc * e.wind_modifier) 1.0
      solar := m.active_events.foldl (fun acc e => acc * e.solar_modifier) 1.0
      hydro := m.active_events.foldl (fun acc e => acc * e.hydro_modifier) 1.0 }

/-- The dictionary returned by `get_stats`. -/
structure Stats where
  active_count : ℕ
  total_experienced : ℕ
  frequency_multiplier : ℚ
  extreme_experienced : Bool
  aurora_seen : Bool
deriving DecidableEq, Repr

/-- `get_stats`: counts and achievement booleans, all computed from
`active_events` and `event_history`. -/
def WeatherEventManager.get_stats (m : WeatherEventManager) : Stats :=
  { active_count := m.active_events.length
    total_experienced := m.event_history.length
    frequency_multiplier := m.frequency_multiplier
    extreme_experienced :=
      m.event_history.any (fun e => e.severity == .EXTREME)
    aurora_seen :=
      m.event_history.any (fun e => e.event_type == .AURORA) }

/-! ### Traces of `update` calls -/

/-- One simulation tick handed to `update`: the snapshot, the wall-clock
value and the aurora random draw of that tick. -/
structure Step where
  gs : GameState
  now : ℚ
  rand : ℚ
deriving DecidableEq, Repr

/-- Iterated `update` over a list of ticks. -/
def runTrace (m : WeatherEventManager) (tr : List Step) : WeatherEventManager :=
  tr.foldl (fun acc s => acc.update s.gs s.now s.rand) m

/-- The events of `active_events` that `update` at clock `now` moves to the
history. -/
def expired_of (m : WeatherEventManager) (now : ℚ) : List WeatherEvent :=
  m.active_events.filter (fun e => ¬ e.is_active now)

/-- The full chronological log of every event a trace expires (a ghost
observer of `runTrace`; `update` itself only keeps a bounded suffix). -/
def expiredLog : WeatherEventManager → List Step → List WeatherEvent
  | _, [] => []
  | m, s :: tr => expired_of m s.now ++ expiredLog (m.update s.gs s.now s.rand) tr

/-- The last `n` entries of a list (Python `l[-n:]`). -/
def takeLast (n : ℕ) (l : List WeatherEvent) : List WeatherEvent :=
  l.drop (l.length - n)

/-! ### `network/weather_service.py` — `_smart_merge` and routing -/

/-- A Python value as stored in the snapshot dictionaries: number, string
or boolean. -/
inductive Value where
  | num (q : ℚ)
  | str (s : String)
  | bool (b : Bool)
deriving DecidableEq, Repr

/-- Python truthiness of a `Value` (`if value:`). -/
def Value.truthy : Value → Bool
  | .num q => q ≠ 0
  | .str s => s ≠ ""
  | .bool b => b

/-- The test `base_val == 0 or base_val == 0.0 or base_val == ""` of
`_smart_merge` (Python `==`: `False == 0` holds, strings never equal
numbers). -/
def Value.isZeroOrEmpty : Value → Bool
  | .num q => q = 0
  | .str s => s = ""
  | .bool b => b = false

/-- The test `value and value != 0 and value != 0.0` of `_smart_merge`. -/
def Value.nonzeroTruthy : Value → Bool
  | .num q => q ≠ 0
  | .str s => s ≠ ""
  | .bool b => b

/-- Snapshot dictionaries as association lists (first binding wins, as in a
Python dict with unique keys). -/
def Dict := List (String × Value)

instance : DecidableEq Dict := by
  unfold Dict
  infer_instance

instance : Membership (String × Value) Dict := by
  unfold Dict
  infer_instance

/-- Python `d[key]` / `key in d` lookup. -/
def dictGet (d : Dict) (k : String) : Option Value :=
  match d.find? (fun p => p.1 == k) with
  | some p => some p.2
  | none => none

/-- Python `d[key] = value`: replace in place, or append a new binding. -/
def dictSet (d : Dict) (k : String) (v : Value) : Dict :=
  match d with
  | [] => [(k, v)]
  | p :: rest =>
    if p.1 == k then (k, v) :: rest else p :: dictSet rest k v

/-- The key list of a dictionary. -/
def dictKeys (d : Dict) : List String := d.map (fun p => p.1)

/-- The `prefer_nonzero_keys` allow-list of `_smart_merge`. -/
def prefer_nonzero_keys : List String :=
  [ "wind_speed", "wind_speed_10m", "wind_speed_80m", "wind_speed_120m",
    "wind_dir", "wind_dir_10m", "wind_gusts",
    "shortwave_radiation", "direct_radiation", "diffuse_radiation",
    "direct_normal_irradiance", "global_tilted_irradiance", "terrestrial_radiation",
    "uv_index", "uv_index_clear_sky",
    "cape", "cin", "et0", "evapotranspiration",
    "soil_moisture", "soil_temp",
    "visibility", "snow_depth",
    "us_aqi", "pm2_5", "pm10", "ozone",
    "sunrise", "sunset", "daylight_duration",
    "precip_probability", "precipitation", "rain", "snowfall", "showers",
    "daily_precip_sum", "daily_rain_sum", "daily_snow_sum" ]

/-- One iteration of the `for key, value in supplemental.items()` loop of
`_smart_merge`, acting on the accumulating `result`. -/
def smart_merge_step (result : Dict) (k : String) (v : Value) : Dict :=
  match dictGet result k with
  | some base_val =>
    if prefer_nonzero_keys.contains k then
      if base_val.isZeroOrEmpty ∧ v.truthy then
        dictSet result k v
      else if v.nonzeroTruthy then
        dictSet result k v
      else
        result
    else
      dictSet result k v
  | none => dictSet result k v

/-- `WeatherService._smart_merge`: start from a copy of `base` and fold the
loop body over the supplemental items. -/
def smart_merge (base supplemental : Dict) : Dict :=
  supplemental.foldl (fun result p => smart_merge_step result p.1 p.2) base

/-- The per-key outcome `_smart_merge` is supposed to produce, stated as a
recurrence on the two lookups (used to characterise `smart_merge`). -/
def mergedValue (k : String) (bv : Option Value) (sv : Option Value) :
    Option Value :=
  match sv, bv with
  | none, b => b
  | some v, none => some v
  | some v, some b =>
    if prefer_nonzero_keys.contains k then
      if v.truthy then some v else some b
    else some v

/-- `WeatherService._is_us_location`: the four inclusive bounding boxes. -/
def is_us_location (lat lon : ℚ) : Bool :=
  (24 ≤ lat ∧ lat ≤ 50 ∧ -125 ≤ lon ∧ lon ≤ -66) ∨
  (51 ≤ lat ∧ lat ≤ 72 ∧ -180 ≤ lon ∧ lon ≤ -129) ∨
  (18 ≤ lat ∧ lat ≤ 23 ∧ -161 ≤ lon ∧ lon ≤ -154) ∨
  (17.5 ≤ lat ∧ lat ≤ 18.6 ∧ -68 ≤ lon ∧ lon ≤ -65)

/-! ### `network/nws_client.py` — station scan of `NWSClient.get_weather` -/

/-- The part of a raw station observation that decides acceptance: the
`properties.temperature.value` reading (`none` models JSON `null`),
together with the parsed snapshot `_parse_observation` would build from
the payload.  `_parse_observation` returns `None` exactly when the
temperature reading is null. -/
structure RawObservation where
  temperature : Option ℚ
  parsed : Dict
deriving DecidableEq

/-- `NWSClient._parse_observation`: reject observations whose temperature
is null, otherwise produce the parsed snapshot. -/
def parse_observation (raw : RawObservation) : Option Dict :=
  match raw.temperature with
  | none => none
  | some _ => some raw.parsed

/-- The I/O environment of one `NWSClient.get_weather` call: the gridpoint
lookup result (with its `observationStations` URL), the station list the
stations URL resolves to, and each station's latest observation
(`none` models any failed request). -/
structure NWSEnv where
  gridpoint : Option (Option String)
  stations : List String
  observation : String → Option RawObservation

/-- Station scan of `NWSClient.get_weather` (step 3): try each station in
order, accept the first parsed observation. -/
def nws_first_observation (env : NWSEnv) : List String → Option Dict
  | [] => none
  | s :: rest =>
    match (env.observation s).bind parse_observation with
    | some d => some d
    | none => nws_first_observation env rest

/-- `NWSClient.get_weather`: gridpoint, stations URL, station list, then
the station scan; `none` at every failure point. -/
def nws_get_weather (env : NWSEnv) : Option Dict :=
  match env.gridpoint with
  | none => none
  | some none => none
  | some (some url) =>
    if url = "" then none
    else if env.stations = [] then none
    else nws_first_observation env env.stations

/-- The I/O environment of one `WeatherService.get_weather` call: the NWS
result (that client catches its own errors and returns `None`), the
Open-Meteo result (likewise), and the `_get_supplemental_data` outcome,
which the aggregator wraps in `try/except` — `.error` models an escaping
exception. -/
structure ServiceEnv where
  nwsEnv : NWSEnv
  openMeteo : Option Dict
  supplemental : Except String (Option Dict)

/-- `WeatherService.get_weather`: route by `_is_us_location`; try NWS for
US points; on NWS success merge the supplemental data, swallowing any
supplemental exception; on NWS failure, or internationally, use
Open-Meteo.  The `Except` result witnesses that the call itself never
propagates an exception. -/
def service_get_weather (env : ServiceEnv) (lat lon : ℚ) :
    Except String (Option Dict) :=
  if is_us_location lat lon then
    match nws_get_weather env.nwsEnv with
    | some nws_data =>
      let merged :=
        match env.supplemental with
        | .ok (some supp) => smart_merge nws_data supp
        | .ok none => nws_data
        | .error _ => nws_data
      .ok (some merged)
    | none => .ok env.openMeteo
  else
    .ok env.openMeteo

/-! ### `network/gfs_client.py` — cycle resolution and cache validity -/

/-- A GFS cache key: `f"{date_str}_{cycle_str}_{lat:.1f}_{lon:.1f}"`,
modelled as the day number, the cycle hour and the coordinates rounded to
0.1° (the string formatting is injective on these components). -/
structure CacheKey where
  day : ℤ
  cycleHour : ℤ
  lat10 : ℤ
  lon10 : ℤ
deriving DecidableEq, Repr

/-- `round(q * 10)` — the 0.1° coordinate bucket of `f"{x:.1f}"`. -/
def roundTenth (q : ℚ) : ℤ := round (q * 10)

/-- `GFSClient._get_latest_cycle` on a UTC clock `now` in seconds:
subtract the 4 h publication delay, floor to the 6 h cycle grid, and clamp
the forecast-hour offset into `[0, 120]`. -/
def get_latest_cycle (now : ℚ) : ℤ × ℤ × ℤ :=
  let available := now - 4 * 3600
  let day : ℤ := ⌊available / 86400⌋
  let hourOfDay : ℤ := ⌊(available - day * 86400) / 3600⌋
  let cycleHour : ℤ := hourOfDay / 6 * 6
  let cycleTime : ℚ := day * 86400 + cycleHour * 3600
  let forecastHour : ℤ := ⌊(now - cycleTime) / 3600⌋
  (day, cycleHour, max 0 (min 120 forecastHour))

/-- `GFSClient._get_cache_key` for the cycle computed at `now`. -/
def get_cache_key (lat lon now : ℚ) : CacheKey :=
  let c := get_latest_cycle now
  { day := c.1, cycleHour := c.2.1, lat10 := roundTenth lat, lon10 := roundTenth lon }

/-- The persistent state of `GFSClient`: the metadata timestamps and the
per-key payload files.  A `Payload` is the flat game-format dict. -/
structure GFSState where
  metadata : List (CacheKey × ℚ)
  store : List (CacheKey × Dict)
deriving DecidableEq

/-- Lookup in the cache metadata (`cache_key in self._cache_metadata`). -/
def metaGet (st : GFSState) (k : CacheKey) : Option ℚ :=
  match st.metadata.find? (fun p => p.1 == k) with
  | some p => some p.2
  | none => none

/-- Lookup of a cached payload file (`_get_cached_data`; `none` models a
missing or unreadable file). -/
def storeGet (st : GFSState) (k : CacheKey) : Option Dict :=
  match st.store.find? (fun p => p.1 == k) with
  | some p => some p.2
  | none => none

/-- `GFSClient._is_cache_valid` at clock `now`: a metadata timestamp
exists and is strictly younger than one 6 h cycle. -/
def is_cache_valid (st : GFSState) (k : CacheKey) (now : ℚ) : Bool :=
  match metaGet st k with
  | none => false
  | some t => now - t < 6 * 3600

/-- `GFSClient._save_to_cache` at clock `now`: write the payload file and
stamp the metadata. -/
def save_to_cache (st : GFSState) (k : CacheKey) (d : Dict) (now : ℚ) :
    GFSState :=
  { metadata := (k, now) :: st.metadata.filter (fun p => ¬ p.1 == k)
    store := (k, d) :: st.store.filter (fun p => ¬ p.1 == k) }

/-- Result of one `get_supplemental_data` call: the returned value, whether
any network fetch was attempted, and the updated client state. -/
structure GFSResult where
  data : Option Dict
  networkCalled : Bool
  state : GFSState
deriving DecidableEq

/-- `GFSClient.get_supplemental_data` with the two possible GRIB fetches
(current cycle, then the previous-cycle fallback) threaded as oracles:
the outer `Option` is whether `fetch_grib` returned bytes (its `none`
triggers the previous-cycle retry), the inner `Option Dict` is what
`parse_grib` + `_to_game_format` yield from those bytes (`none` models a
parse failure, which is returned as overall failure without a retry).
A valid cache entry with a readable, non-empty payload is returned without
touching the network; a successful parse is written back to the cache. -/
def get_supplemental_data (st : GFSState) (lat lon now : ℚ)
    (fetchCur fetchPrev : Option (Option Dict)) : GFSResult :=
  let key := get_cache_key lat lon now
  let cachedHit : Option Dict :=
    if is_cache_valid st key now then
      match storeGet st key with
      | some c => if c ≠ [] then some c else none
      | none => none
    else none
  match cachedHit with
  | some c => { data := some c, networkCalled := false, state := st }
  | none =>
    let fetched : Option (Option Dict) :=
      match fetchCur with
      | some parsed => some parsed
      | none => fetchPrev
    match fetched with
    | none => { data := none, networkCalled := true, state := st }
    | some none => { data := none, networkCalled := true, state := st }
    | some (some d) => { data := some d, networkCalled := true,
                         state := save_to_cache st key d now }

/-! ### Concrete inputs used by the individual claims -/

/-- A calm baseline snapshot that triggers nothing. -/
def gs_calm : GameState :=
  { rain_vol := 0, weather_code := 0, cape := 0, temp_c := 20, wind_speed := 0,
    visibility := 10000, humidity := 50, lat := 0, is_day := true, alerts := [] }

/-- A snapshot carrying two NOAA alerts whose event names both contain
the keyword "flood". -/
def gs_two_flood_alerts : GameState :=
  { gs_calm with
    alerts := [{ event := "Flood Warning", description := "a" },
               { event := "Flash Flood Warning", description := "b" }] }

/-- A calm 40 degree snapshot with no alerts (heatwave scenario). -/
def gs_heat40 : GameState := { gs_calm with temp_c := 40 }

/-- A snapshot with thunderstorm weather code 99 and a trace of rain
(creates an EXTREME thunderstorm and keeps the drought timer fresh). -/
def gs_code99 : GameState := { gs_calm with weather_code := 99, rain_vol := 1 }

/-- A snapshot with 150 mm/h rain (flash-flood trigger). -/
def gs_rain150 : GameState := { gs_calm with rain_vol := 150 }

/-- A foggy snapshot: visibility 900 m, humidity 95 %. -/
def gs_fog : GameState := { gs_calm with visibility := 900, humidity := 95 }

/-- A 23-tick trace: one extreme thunderstorm at clock 100, then 22
flash floods 4000 s apart, each expiring the previous one. -/
def trace_c5 : List Step :=
  ⟨gs_code99, 100, 1⟩ ::
    (List.range 22).map (fun k => ⟨gs_rain150, 8000 + 4000 * (k : ℚ), 1⟩)

/-- A primary snapshot with a non-zero value for every allow-listed field
(plus one extra field). -/
def base_allowlist_full : Dict :=
  prefer_nonzero_keys.map (fun k => (k, Value.num 1)) ++ [("temp", Value.num 5)]

/-- An enrichment carrying a zero for the allow-listed key
`wind_speed`. -/
def supp_zero_wind : Dict := [("wind_speed", Value.num 0)]

/-- A small primary with a non-zero `wind_speed`. -/
def base_two : Dict := [("temp", Value.num 5), ("wind_speed", Value.num 3)]

/-- An enrichment with `wind_speed = 4.5`. -/
def supp_wind45 : Dict := [("wind_speed", Value.num 4.5)]

/-- A service environment for the fallback scenario: the gridpoint and
station list resolve, but every station observation carries a null
temperature; Open-Meteo works; the supplemental fetch raises. -/
def env_null_temp : ServiceEnv :=
  { nwsEnv :=
      { gridpoint := some (some "https://api.weather.gov/gridpoints/MPX/107,71/stations")
        stations := ["KSTP", "KMSP"]
        observation := fun _ => some { temperature := none, parsed := [] } }
    openMeteo := some [("temp", Value.num 7)]
    supplemental := .error "supplemental failure" }

/-- A `GFSClient` state with no cache entries. -/
def emptyGFS : GFSState := { metadata := [], store := [] }

/-- A write clock on day 2, 09:59:00 UTC (one minute before the computed
model cycle flips from 00 to 06). -/
def c8_T : ℚ := 208740

/-- A read clock 120 s later, day 2, 10:01:00 UTC (cycle 06). -/
def c8_T2 : ℚ := 208860

/-- A small cached GFS payload. -/
def c8_payload : Dict := [("gfs_cape", Value.num 100)]

/-! ### Theorems -/

/-- Folding multiplication over a list is the product of the mapped list. -/
theorem foldl_mul_map (f : WeatherEvent → ℚ) (l : List WeatherEvent) (a : ℚ) :
    l.foldl (fun acc e => acc * f e) a = a * (l.map f).prod := by
  induction l generalizing a with
  | nil => simp
  | cons e tl ih => simp [ih, mul_assoc]

/-- C6 — Modifier composition: `get_active_modifiers` returns, per channel,
exactly the product of that channel's modifier over all currently active
events (so `1` per channel when none is active); and with two active
events of wind modifiers 1.2 and 0.5 the wind multiplier is 0.6. -/
theorem C6_modifier_composition :
    (∀ m : WeatherEventManager,
      m.get_active_modifiers =
        { wind := (m.active_events.map WeatherEvent.wind_modifier).prod
          solar := (m.active_events.map WeatherEvent.solar_modifier).prod
          hydro := (m.active_events.map WeatherEvent.hydro_modifier).prod }) ∧
    ({ WeatherEventManager.init 0 with
        active_events :=
          [create_thunderstorm .MINOR 0, create_hurricane .EXTREME 0] }
      : WeatherEventManager).get_active_modifiers.wind = 0.6 ∧
    (create_thunderstorm .MINOR 0).wind_modifier = 1.2 ∧
    (create_hurricane .EXTREME 0).wind_modifier = 0.5 := by
  refine ⟨fun m => ?_, ?_, ?_, ?_⟩
  · by_cases h : m.active_events.isEmpty
    · rw [List.isEmpty_iff] at h
      simp [WeatherEventManager.get_active_modifiers, h]
      norm_num
    · simp only [WeatherEventManager.get_active_modifiers, h, if_false,
        Bool.false_eq_true, foldl_mul_map]
      norm_num
  · with_unfolding_all rfl
  · with_unfolding_all rfl
  · with_unfolding_all rfl

/-- C9 — `set_frequency_multiplier` clamps into `[1, 3]`: after any
sequence of calls the stored multiplier stays in the interval, and each
single call clamps to the nearest bound (or stores an in-range value
unchanged). -/
theorem C9_frequency_multiplier_clamped :
    (∀ (t0 : ℚ) (xs : List ℚ),
      1 ≤ (xs.foldl WeatherEventManager.set_frequency_multiplier
            (WeatherEventManager.init t0)).frequency_multiplier ∧
      (xs.foldl WeatherEventManager.set_frequency_multiplier
        (WeatherEventManager.init t0)).frequency_multiplier ≤ 3) ∧
    (∀ (m : WeatherEventManager) (x : ℚ),
      (x < 1 → (m.set_frequency_multiplier x).frequency_multiplier = 1) ∧
      (3 < x → (m.set_frequency_multiplier x).frequency_multiplier = 3) ∧
      (1 ≤ x → x ≤ 3 →
        (m.set_frequency_multiplier x).frequency_multiplier = x)) := by
  have hstep : ∀ (m : WeatherEventManager) (x : ℚ),
      1 ≤ (m.set_frequency_multiplier x).frequency_multiplier ∧
      (m.set_frequency_multiplier x).frequency_multiplier ≤ 3 := by
    intro m x
    constructor
    · exact le_max_left 1 _
    · exact max_le (by norm_num) (min_le_left 3 x)
  have haux : ∀ (xs : List ℚ) (m : WeatherEventManager),
      1 ≤ m.frequency_multiplier → m.frequency_multiplier ≤ 3 →
      1 ≤ (xs.foldl WeatherEventManager.set_frequency_multiplier
            m).frequency_multiplier ∧
      (xs.foldl WeatherEventManager.set_frequency_multiplier
        m).frequency_multiplier ≤ 3 := by
    intro xs
    induction xs with
    | nil => intro m h1 h3; exact ⟨h1, h3⟩
    | cons x tl ih =>
      intro m _ _
      exact ih _ (hstep m x).1 (hstep m x).2
  refine ⟨fun t0 xs => haux xs _ (by norm_num [WeatherEventManager.init])
      (by norm_num [WeatherEventManager.init]), fun m x => ⟨?_, ?_, ?_⟩⟩
  · intro hx
    simp only [WeatherEventManager.set_frequency_multiplier]
    rw [min_eq_right (by linarith), max_eq_left (by linarith)]
  · intro hx
    simp only [WeatherEventManager.set_frequency_multiplier]
    rw [min_eq_left (by linarith), max_eq_right (by norm_num)]
  · intro hx1 hx3
    simp only [WeatherEventManager.set_frequency_multiplier]
    rw [min_eq_right hx3, max_eq_right hx1]

/-- Witness for C9 at concrete inputs. -/
theorem C9_frequency_multiplier_clamped_witness :
    (1 ≤ ([(-5 : ℚ), 10, 2].foldl WeatherEventManager.set_frequency_multiplier
          (WeatherEventManager.init 0)).frequency_multiplier) ∧
    ((WeatherEventManager.init 0).set_frequency_multiplier
        (-5)).frequency_multiplier = 1 ∧
    ((WeatherEventManager.init 0).set_frequency_multiplier
        10).frequency_multiplier = 3 :=
  ⟨(C9_frequency_multiplier_clamped.1 0 [(-5 : ℚ), 10, 2]).1,
   (C9_frequency_multiplier_clamped.2 (WeatherEventManager.init 0) (-5)).1
     (by norm_num),
   (C9_frequency_multiplier_clamped.2 (WeatherEventManager.init 0) 10).2.1
     (by norm_num)⟩

/-- C1 — evaluation at the failing input: a single `update` carrying two
alerts whose names both map to FLASH_FLOOD leaves TWO active flash-flood
events, because `_has_active_event` only consults `active_events` and the
events created earlier in the same tick are still in the local
`new_events` list. -/
theorem C1_two_active_flash_floods :
    (((WeatherEventManager.init 0).update gs_two_flood_alerts 0 1
        ).active_events.filter
        (fun e => e.event_type == EventType.FLASH_FLOOD)).length = 2 := by
  with_unfolding_all rfl

/-- Raising the multiplier within `[1, ∞)` lowers `1 / mult`. -/
theorem one_div_mult_anti {m m' : ℚ} (h1 : 1 ≤ m) (h2 : m ≤ m') :
    1 / m' ≤ 1 / m :=
  one_div_le_one_div_of_le (lt_of_lt_of_le zero_lt_one h1) h2

/-- A nonnegative threshold scaled by `1 / mult` is antitone in the
multiplier. -/
theorem adj_anti_of_nonneg {a m m' : ℚ} (ha : 0 ≤ a) (h1 : 1 ≤ m)
    (h2 : m ≤ m') : a * (1 / m') ≤ a * (1 / m) :=
  mul_le_mul_of_nonneg_left (one_div_mult_anti h1 h2) ha

/-- A nonpositive threshold scaled by `1 / mult` is monotone in the
multiplier. -/
theorem adj_mono_of_nonpos {a m m' : ℚ} (ha : a ≤ 0) (h1 : 1 ≤ m)
    (h2 : m ≤ m') : a * (1 / m) ≤ a * (1 / m') :=
  mul_le_mul_of_nonpos_left (one_div_mult_anti h1 h2) ha

/-- C4 (amended) — Frequency-multiplier monotonicity holds for ten of the
twelve event types: for thunderstorm, heatwave, blizzard, windstorm,
drought, tornado, hurricane, cold snap, flash flood and aurora, if the
threshold trigger fires at multiplier `m` it also fires at every
multiplier `m'` with `m ≤ m' ≤ 3`.  (It fails for dust storm and fog,
whose visibility conditions compare `value < threshold / multiplier`;
see the counterexample.) -/
theorem C4_trigger_monotone_except_visibility
    (gs : GameState) (hwStart coldStart lastRain now rand m m' : ℚ)
    (h1 : 1 ≤ m) (h2 : m ≤ m') (h3 : m' ≤ 3) :
    (fires_thunderstorm gs m = true → fires_thunderstorm gs m' = true) ∧
    (fires_heatwave gs hwStart now m = true →
      fires_heatwave gs hwStart now m' = true) ∧
    (fires_blizzard gs m = true → fires_blizzard gs m' = true) ∧
    (fires_windstorm gs m = true → fires_windstorm gs m' = true) ∧
    (fires_drought gs lastRain now m = true →
      fires_drought gs lastRain now m' = true) ∧
    (fires_tornado gs m = true → fires_tornado gs m' = true) ∧
    (fires_hurricane gs m = true → fires_hurricane gs m' = true) ∧
    (fires_cold_snap gs coldStart now m = true →
      fires_cold_snap gs coldStart now m' = true) ∧
    (fires_flash_flood gs m = true → fires_flash_flood gs m' = true) ∧
    (fires_aurora gs m rand = true → fires_aurora gs m' rand = true) := by
  refine ⟨?_, ?_, ?_, ?_, ?_, ?_, ?_, ?_, ?_, ?_⟩
  · intro h
    simp only [fires_thunderstorm, decide_eq_true_eq] at h ⊢
    rcases h with h | h
    · exact Or.inl h
    · exact Or.inr (lt_of_le_of_lt (adj_anti_of_nonneg (by norm_num) h1 h2) h)
  · intro h
    simp only [fires_heatwave, decide_eq_true_eq] at h ⊢
    exact ⟨lt_of_le_of_lt (adj_anti_of_nonneg (by norm_num) h1 h2) h.1, h.2.1,
      lt_of_le_of_lt (adj_anti_of_nonneg (by norm_num) h1 h2) h.2.2⟩
  · intro h
    simp only [fires_blizzard, decide_eq_true_eq] at h ⊢
    exact ⟨h.1, lt_of_le_of_lt (adj_anti_of_nonneg (by norm_num) h1 h2) h.2⟩
  · intro h
    simp only [fires_windstorm, decide_eq_true_eq] at h ⊢
    exact lt_of_le_of_lt (adj_anti_of_nonneg (by norm_num) h1 h2) h
  · intro h
    simp only [fires_drought, decide_eq_true_eq] at h ⊢
    exact ⟨lt_of_le_of_lt (adj_anti_of_nonneg (by norm_num) h1 h2) h.1, h.2⟩
  · intro h
    simp only [fires_tornado, decide_eq_true_eq] at h ⊢
    refine ⟨lt_of_le_of_lt (adj_anti_of_nonneg (by norm_num) h1 h2) h.1,
      h.2.1, ?_⟩
    rcases h.2.2 with hm | habs
    · exact Or.inl (lt_of_lt_of_le hm h2)
    · exfalso
      revert habs
      split <;> norm_num
  · intro h
    simp only [fires_hurricane, decide_eq_true_eq] at h ⊢
    exact ⟨lt_of_le_of_lt (adj_anti_of_nonneg (by norm_num) h1 h2) h.1,
      lt_of_le_of_lt (adj_anti_of_nonneg (by norm_num) h1 h2) h.2⟩
  · intro h
    simp only [fires_cold_snap, decide_eq_true_eq] at h ⊢
    exact ⟨lt_of_lt_of_le h.1 (adj_mono_of_nonpos (by norm_num) h1 h2), h.2.1,
      lt_of_le_of_lt (adj_anti_of_nonneg (by norm_num) h1 h2) h.2.2⟩
  · intro h
    simp only [fires_flash_flood, decide_eq_true_eq] at h ⊢
    exact lt_of_le_of_lt (adj_anti_of_nonneg (by norm_num) h1 h2) h
  · intro h
    simp only [fires_aurora, decide_eq_true_eq] at h ⊢
    refine ⟨lt_of_le_of_lt (adj_anti_of_nonneg (by norm_num) h1 h2) h.1,
      h.2.1, lt_of_lt_of_le h.2.2 ?_⟩
    exact mul_le_mul_of_nonneg_left h2 (by norm_num)

/-- Witness for C4 at concrete inputs: a 30 m/s windstorm trigger that
fires at multiplier 1 still fires at multiplier 2. -/
theorem C4_trigger_monotone_except_visibility_witness :
    fires_windstorm { gs_calm with wind_speed := 30 } 1 = true ∧
    fires_windstorm { gs_calm with wind_speed := 30 } 2 = true :=
  ⟨by with_unfolding_all rfl,
   (C4_trigger_monotone_except_visibility { gs_calm with wind_speed := 30 }
      0 0 0 0 0 1 2 (by norm_num) (by norm_num) (by norm_num)).2.2.2.1
     (by with_unfolding_all rfl)⟩

/-- C4 — counterexample to the claim as stated: the FOG trigger fires at
multiplier 1 on a 900 m-visibility, 95 %-humidity snapshot but no longer
fires at multiplier 2 (both multipliers within `[1, 3]`), because the
visibility threshold `1000 / multiplier` shrinks below the reading. -/
theorem C4_fog_counterexample :
    ((1 : ℚ) ≤ 1 ∧ (1 : ℚ) ≤ 2 ∧ (2 : ℚ) ≤ 3) ∧
    fires_fog gs_fog 1 = true ∧ fires_fog gs_fog 2 = false :=
  ⟨⟨le_refl 1, by norm_num, by norm_num⟩,
   by with_unfolding_all rfl, by with_unfolding_all rfl⟩

/-- First tick of the heatwave scenario: at 40 degrees the dwell timer is
armed (set to the clock) and no event is created yet. -/
theorem heatwave_scenario_arms_timer (t0 : ℚ) :
    (WeatherEventManager.init t0).update gs_heat40 t0 1 =
      { WeatherEventManager.init t0 with heatwave_start_time := t0 } := by
  simp [WeatherEventManager.update, WeatherEventManager.check_for_events,
    WeatherEventManager.init, WeatherEventManager.has_active_event,
    gs_heat40, gs_calm, fires_thunderstorm, fires_blizzard, fires_windstorm,
    fires_drought, fires_dust_storm, fires_fog, fires_tornado,
    fires_hurricane, fires_flash_flood, fires_aurora, sub_self, zero_div]
  norm_num

/-- Second tick of the heatwave scenario, more than 7200 s later: the
moderate heatwave is created and the timer resets. -/
theorem heatwave_scenario_fires (t0 t1 : ℚ) (h0 : 0 < t0)
    (h1 : 7200 < t1 - t0) (h2 : t1 - t0 ≤ 86400) :
    ({ WeatherEventManager.init t0 with heatwave_start_time := t0 }
      : WeatherEventManager).update gs_heat40 t1 1 =
      { WeatherEventManager.init t0 with
          active_events := [create_heatwave .MODERATE t1]
          last_rain_time := t0 } := by
  have ht0 : t0 ≠ 0 := ne_of_gt h0
  have hdr : ¬ ((24 : ℚ) < (t1 - t0) / 3600) := by
    rw [not_lt, div_le_iff₀ (by norm_num : (0:ℚ) < 3600)]
    linarith
  simp [WeatherEventManager.update, WeatherEventManager.check_for_events,
    WeatherEventManager.init, WeatherEventManager.has_active_event,
    gs_heat40, gs_calm, fires_thunderstorm, fires_blizzard, fires_windstorm,
    fires_drought, fires_dust_storm, fires_fog, fires_tornado,
    fires_hurricane, fires_flash_flood, fires_aurora,
    determine_heatwave_severity, ht0, hdr, h1]
  norm_num

/-- C7 — Heatwave scenario at multiplier 1: with the 40 degree snapshot
sustained across updates more than 7200 s apart (and under the 24 h
drought horizon, so no other trigger matches), the second update creates
exactly one Heatwave event of severity MODERATE whose wind/solar/hydro
modifiers are (0.8, 1.4, 0.7). -/
theorem C7_heatwave_scenario (t0 t1 : ℚ) (h0 : 0 < t0)
    (h1 : 7200 < t1 - t0) (h2 : t1 - t0 ≤ 86400) :
    (((WeatherEventManager.init t0).update gs_heat40 t0 1).update
        gs_heat40 t1 1).active_events = [create_heatwave .MODERATE t1] ∧
    determine_heatwave_severity gs_heat40 = .MODERATE ∧
    (create_heatwave .MODERATE t1).wind_modifier = 0.8 ∧
    (create_heatwave .MODERATE t1).solar_modifier = 1.4 ∧
    (create_heatwave .MODERATE t1).hydro_modifier = 0.7 := by
  rw [heatwave_scenario_arms_timer, heatwave_scenario_fires t0 t1 h0 h1 h2]
  refine ⟨rfl, ?_, rfl, rfl, rfl⟩
  simp [determine_heatwave_severity, gs_heat40, gs_calm]
  norm_num

/-- Witness for C7 at the concrete clocks 1000 and 10000. -/
theorem C7_heatwave_scenario_witness :
    (((WeatherEventManager.init 1000).update gs_heat40 1000 1).update
        gs_heat40 10000 1).active_events =
      [create_heatwave .MODERATE 10000] :=
  (C7_heatwave_scenario 1000 10000 (by norm_num) (by norm_num)
    (by norm_num)).1

/-- The history trim of `update` is exactly `takeLast 20`. -/
theorem trim_eq_takeLast (l : List WeatherEvent) :
    (if l.length > 20 then l.drop (l.length - 20) else l) = takeLast 20 l := by
  unfold takeLast
  split
  · rfl
  · next h =>
    rw [not_lt] at h
    rw [Nat.sub_eq_zero_of_le h, List.drop_zero]

/-- `takeLast 20` ignores everything before a suffix of length ≥ 20. -/
theorem takeLast_append_right (u v : List WeatherEvent) (h : 20 ≤ v.length) :
    takeLast 20 (u ++ v) = takeLast 20 v := by
  unfold takeLast
  rw [List.length_append]
  have heq : u.length + v.length - 20 = u.length + (v.length - 20) := by omega
  rw [heq, List.drop_append]

/-- Trimming an already-trimmed prefix before appending changes nothing. -/
theorem takeLast_takeLast_append (a b : List WeatherEvent) :
    takeLast 20 (takeLast 20 a ++ b) = takeLast 20 (a ++ b) := by
  by_cases h : a.length ≤ 20
  · have ha : takeLast 20 a = a := by
      unfold takeLast
      rw [Nat.sub_eq_zero_of_le h, List.drop_zero]
    rw [ha]
  · push_neg at h
    have hv : 20 ≤ (List.drop (a.length - 20) a ++ b).length := by
      rw [List.length_append, List.length_drop]
      omega
    conv_rhs => rw [← List.take_append_drop (a.length - 20) a,
      List.append_assoc, takeLast_append_right _ _ hv]
    simp only [takeLast]

/-- One `update` call appends this tick's expired events and re-trims. -/
theorem update_event_history (m : WeatherEventManager) (gs : GameState)
    (now rand : ℚ) (hmax : m.max_history = 20) :
    (m.update gs now rand).event_history =
      takeLast 20 (m.event_history ++ expired_of m now) ∧
    (m.update gs now rand).max_history = 20 := by
  unfold WeatherEventManager.update expired_of
  simp only [hmax]
  exact ⟨trim_eq_takeLast _, trivial⟩

/-- Along any trace, `event_history` is the 20-element suffix of the full
expiry log. -/
theorem runTrace_history (tr : List Step) :
    ∀ (m : WeatherEventManager) (pre : List WeatherEvent),
      m.event_history = takeLast 20 pre → m.max_history = 20 →
      (runTrace m tr).event_history = takeLast 20 (pre ++ expiredLog m tr) := by
  induction tr with
  | nil =>
    intro m pre h hm
    simpa [runTrace, expiredLog] using h
  | cons s tl ih =>
    intro m pre h hm
    have hstep := update_event_history m s.gs s.now s.rand hm
    have hnew : (m.update s.gs s.now s.rand).event_history =
        takeLast 20 (pre ++ expired_of m s.now) := by
      rw [hstep.1, h, takeLast_takeLast_append]
    have hrun : runTrace m (s :: tl) =
        runTrace (m.update s.gs s.now s.rand) tl := rfl
    rw [hrun, ih _ _ hnew hstep.2, expiredLog, ← List.append_assoc]

/-- C5 (amended) — after any update trace from a fresh manager,
`get_stats` reports the count of currently active events and, for the
history-derived entries, values computed from the *bounded* history: the
length of the last-20 suffix of the expiry log and booleans that hold iff
an extreme-severity (resp. aurora) event occurs in that suffix — not over
the whole lifetime. -/
theorem C5_stats_reflect_bounded_history (t0 : ℚ) (tr : List Step) :
    (runTrace (WeatherEventManager.init t0) tr).get_stats.active_count =
      (runTrace (WeatherEventManager.init t0) tr).active_events.length ∧
    (runTrace (WeatherEventManager.init t0) tr).get_stats.total_experienced =
      (takeLast 20 (expiredLog (WeatherEventManager.init t0) tr)).length ∧
    (runTrace (WeatherEventManager.init t0) tr).get_stats.extreme_experienced =
      (takeLast 20 (expiredLog (WeatherEventManager.init t0) tr)).any
        (fun e => e.severity == EventSeverity.EXTREME) ∧
    (runTrace (WeatherEventManager.init t0) tr).get_stats.aurora_seen =
      (takeLast 20 (expiredLog (WeatherEventManager.init t0) tr)).any
        (fun e => e.event_type == EventType.AURORA) := by
  have h := runTrace_history tr (WeatherEventManager.init t0) []
    (by simp [WeatherEventManager.init, takeLast]) rfl
  simp only [List.nil_append] at h
  simp [WeatherEventManager.get_stats, h]

set_option maxRecDepth 100000 in
/-- C5 — counterexample to the claim as stated: along a 23-tick trace in
which 22 events expire — among them an EXTREME thunderstorm that was
active after the first tick — `get_stats` reports `total_experienced = 20`
(not the lifetime count 22) and `extreme_experienced = false` even though
an extreme event was experienced. -/
theorem C5_lifetime_counterexample :
    (((WeatherEventManager.init 100).update gs_code99 100 1).active_events.any
        (fun e => e.severity == EventSeverity.EXTREME) = true) ∧
    (expiredLog (WeatherEventManager.init 100) trace_c5).length = 22 ∧
    ((expiredLog (WeatherEventManager.init 100) trace_c5).any
        (fun e => e.severity == EventSeverity.EXTREME) = true) ∧
    (runTrace (WeatherEventManager.init 100)
        trace_c5).get_stats.total_experienced = 20 ∧
    (runTrace (WeatherEventManager.init 100)
        trace_c5).get_stats.extreme_experienced = false := by
  refine ⟨?_, ?_, ?_, ?_, ?_⟩ <;> with_unfolding_all rfl

/-- `nonzeroTruthy` coincides with Python truthiness on every value. -/
theorem nonzeroTruthy_eq_truthy (v : Value) : v.nonzeroTruthy = v.truthy := by
  cases v <;> rfl

/-- Lookup in a cons dictionary. -/
theorem dictGet_cons (k₀ : String) (v₀ : Value) (tl : List (String × Value))
    (k : String) :
    dictGet ((k₀, v₀) :: tl) k = if k₀ = k then some v₀ else dictGet tl k := by
  by_cases h : k₀ = k
  · simp [dictGet, List.find?, h]
  · have hb : (k₀ == k) = false := beq_eq_false_iff_ne.mpr h
    simp [dictGet, List.find?, hb, h]

/-- Lookup after a `dictSet` update. -/
theorem dictGet_dictSet (d : Dict) (k : String) (v : Value) (k' : String) :
    dictGet (dictSet d k v) k' = if k = k' then some v else dictGet d k' := by
  induction d with
  | nil =>
    by_cases h : k = k'
    · simp [dictSet, dictGet, List.find?, h]
    · have hb : (k == k') = false := beq_eq_false_iff_ne.mpr h
      simp [dictSet, dictGet, List.find?, hb, h]
  | cons p tl ih =>
    obtain ⟨pk, pv⟩ := p
    by_cases hpk : pk = k
    · subst hpk
      simp only [dictSet, beq_self_eq_true, if_true]
      by_cases h : pk = k' <;> simp [dictGet_cons, h]
    · have hb : (pk == k) = false := beq_eq_false_iff_ne.mpr hpk
      simp only [dictSet, hb, Bool.false_eq_true, if_false]
      rw [dictGet_cons, dictGet_cons, ih]
      by_cases h1 : pk = k' <;> by_cases h2 : k = k' <;> simp [h1, h2]
      exact absurd (h1.trans h2.symm) hpk

/-- A key outside a dictionary's key list looks up to `none`. -/
theorem dictGet_eq_none (d : Dict) (k : String) (h : ¬ k ∈ dictKeys d) :
    dictGet d k = none := by
  induction d with
  | nil => rfl
  | cons p tl ih =>
    obtain ⟨pk, pv⟩ := p
    have h' : ¬ (k = pk ∨ k ∈ dictKeys tl) := by
      simpa [dictKeys] using h
    push_neg at h'
    rw [dictGet_cons, if_neg (fun hh => h'.1 hh.symm)]
    exact ih h'.2

/-- A successful lookup exhibits a member binding. -/
theorem mem_of_dictGet (d : Dict) (k : String) (v : Value)
    (h : dictGet d k = some v) : (k, v) ∈ d := by
  induction d with
  | nil => simp [dictGet, List.find?] at h
  | cons p tl ih =>
    obtain ⟨pk, pv⟩ := p
    rw [dictGet_cons] at h
    by_cases hp : pk = k
    · rw [if_pos hp] at h
      injection h with h
      subst hp h
      exact List.mem_cons_self _ _
    · rw [if_neg hp] at h
      exact List.mem_cons_of_mem _ (ih h)

/-- Per-key effect of one `_smart_merge` loop iteration. -/
theorem dictGet_smart_merge_step (r : Dict) (k : String) (v : Value)
    (k' : String) :
    dictGet (smart_merge_step r k v) k' =
      if k = k' then mergedValue k (dictGet r k) (some v)
      else dictGet r k' := by
  unfold smart_merge_step mergedValue
  cases hb : dictGet r k with
  | none =>
    simp only [dictGet_dictSet]
  | some b =>
    by_cases hal : prefer_nonzero_keys.contains k <;>
      by_cases ht : v.truthy <;>
        by_cases hz : b.isZeroOrEmpty <;>
          by_cases h : k = k' <;>
            simp_all [dictGet_dictSet, nonzeroTruthy_eq_truthy]

/-- Per-key characterisation of the whole `_smart_merge` fold
(accumulator form). -/
theorem dictGet_smart_merge_aux (suppl : Dict) :
    ∀ (acc : Dict), (dictKeys suppl).Nodup → ∀ k,
      dictGet (suppl.foldl (fun r p => smart_merge_step r p.1 p.2) acc) k =
        mergedValue k (dictGet acc k) (dictGet suppl k) := by
  induction suppl with
  | nil => intro acc _ k; rfl
  | cons p tl ih =>
    intro acc hnd k
    obtain ⟨k₀, v₀⟩ := p
    have hcons : dictKeys ((k₀, v₀) :: tl) = k₀ :: dictKeys tl := rfl
    rw [hcons, List.nodup_cons] at hnd
    rw [List.foldl_cons, ih _ hnd.2 k, dictGet_cons]
    by_cases h : k₀ = k
    · subst h
      rw [if_pos rfl, dictGet_eq_none tl _ hnd.1]
      show mergedValue k₀ (dictGet (smart_merge_step acc k₀ v₀) k₀) none =
        mergedValue k₀ (dictGet acc k₀) (some v₀)
      rw [dictGet_smart_merge_step, if_pos rfl]
      cases hm : mergedValue k₀ (dictGet acc k₀) (some v₀) <;> rfl
    · rw [if_neg h, dictGet_smart_merge_step, if_neg h]

/-- Per-key characterisation of `_smart_merge`. -/
theorem dictGet_smart_merge (base suppl : Dict)
    (hnd : (dictKeys suppl).Nodup) (k : String) :
    dictGet (smart_merge base suppl) k =
      mergedValue k (dictGet base k) (dictGet suppl k) :=
  dictGet_smart_merge_aux suppl base hnd k

/-- C2 (amended) — Smart-merge policy: per key, `_smart_merge` yields the
enrichment value for an allow-listed key exactly when that value is
non-zero/non-empty (keeping the base value otherwise), overwrites
non-allow-listed keys unconditionally and adds keys absent from the base
(the `mergedValue` recurrence).  The "in particular" scenario holds under
the provisos the counterexample forces: when every enrichment entry is
allow-listed with a non-zero/non-empty value, the merge yields the
enrichment values exactly on the enrichment's keys and the primary values
everywhere else. -/
theorem C2_smart_merge_policy :
    (∀ (base suppl : Dict), (dictKeys suppl).Nodup → ∀ k,
      dictGet (smart_merge base suppl) k =
        mergedValue k (dictGet base k) (dictGet suppl k)) ∧
    (∀ (base suppl : Dict), (dictKeys suppl).Nodup →
      (∀ p ∈ suppl, prefer_nonzero_keys.contains p.1 = true ∧
        p.2.truthy = true) →
      ∀ k,
        (∀ v, dictGet suppl k = some v →
          dictGet (smart_merge base suppl) k = some v) ∧
        (dictGet suppl k = none →
          dictGet (smart_merge base suppl) k = dictGet base k)) := by
  refine ⟨dictGet_smart_merge, fun base suppl hnd hall k => ⟨?_, ?_⟩⟩
  · intro v hs
    rw [dictGet_smart_merge base suppl hnd k, hs]
    have hm := hall (k, v) (mem_of_dictGet suppl k v hs)
    have hc : prefer_nonzero_keys.contains k = true := hm.1
    have ht : v.truthy = true := hm.2
    cases hb : dictGet base k <;>
      simp [mergedValue, hc, ht]
  · intro hs
    rw [dictGet_smart_merge base suppl hnd k, hs]
    cases hb : dictGet base k <;> rfl

/-- Witness for C2 at concrete inputs: merging `{wind_speed: 4.5}` into
`{temp: 5, wind_speed: 3}` yields `wind_speed = 4.5` and keeps
`temp = 5`. -/
theorem C2_smart_merge_policy_witness :
    dictGet (smart_merge base_two supp_wind45) "wind_speed" =
      some (Value.num 4.5) ∧
    dictGet (smart_merge base_two supp_wind45) "temp" =
      some (Value.num 5) := by
  have hnd : (dictKeys supp_wind45).Nodup := by
    simp [supp_wind45, dictKeys]
  have hall : ∀ p ∈ supp_wind45,
      prefer_nonzero_keys.contains p.1 = true ∧ p.2.truthy = true := by
    intro p hp
    rw [supp_wind45, List.mem_singleton] at hp
    subst hp
    exact ⟨by with_unfolding_all rfl, by with_unfolding_all rfl⟩
  refine ⟨(C2_smart_merge_policy.2 base_two supp_wind45 hnd hall
      "wind_speed").1 (Value.num 4.5) (by with_unfolding_all rfl), ?_⟩
  have h2 := (C2_smart_merge_policy.2 base_two supp_wind45 hnd hall
      "temp").2 (by with_unfolding_all rfl)
  rw [h2]
  with_unfolding_all rfl

/-- C2 — counterexample to the claim's final sentence as stated: the
primary has non-zero values for every allow-listed field, the enrichment
supplies `wind_speed = 0` for the allow-listed key `wind_speed`, yet the
merged snapshot keeps the primary's `1` instead of yielding the
enrichment value for that field. -/
theorem C2_zero_enrichment_counterexample :
    prefer_nonzero_keys.contains "wind_speed" = true ∧
    (prefer_nonzero_keys.all
      (fun k => dictGet base_allowlist_full k == some (Value.num 1))) = true ∧
    dictGet supp_zero_wind "wind_speed" = some (Value.num 0) ∧
    dictGet (smart_merge base_allowlist_full supp_zero_wind) "wind_speed" =
      some (Value.num 1) := by
  refine ⟨?_, ?_, ?_, ?_⟩ <;> with_unfolding_all rfl

/-- C10 — `_smart_merge` never drops a field and leaves the base intact
outside the supplemental keys: a key is present in the result iff it is
present in the base or in the supplemental mapping, and every base key
absent from the supplemental keeps its original base value.  (The Python
loop works on `base.copy()`, so the base dictionary itself is never
mutated; the embedding is pure by construction.) -/
theorem C10_smart_merge_union_frame (base suppl : Dict)
    (hnd : (dictKeys suppl).Nodup) :
    (∀ k, (dictGet (smart_merge base suppl) k).isSome =
      ((dictGet base k).isSome || (dictGet suppl k).isSome)) ∧
    (∀ k, dictGet suppl k = none →
      dictGet (smart_merge base suppl) k = dictGet base k) := by
  constructor
  · intro k
    rw [dictGet_smart_merge base suppl hnd k]
    cases hb : dictGet base k <;> cases hs : dictGet suppl k
    · rfl
    · simp [mergedValue]
    · rfl
    · simp only [mergedValue]
      split_ifs <;> simp
  · intro k hs
    rw [dictGet_smart_merge base suppl hnd k, hs]
    cases hb : dictGet base k <;> rfl

/-- Witness for C10 at concrete inputs. -/
theorem C10_smart_merge_union_frame_witness :
    (dictGet (smart_merge base_two supp_wind45) "temp").isSome =
      ((dictGet base_two "temp").isSome ||
        (dictGet supp_wind45 "temp").isSome) ∧
    dictGet (smart_merge base_two supp_wind45) "temp" =
      dictGet base_two "temp" := by
  have hnd : (dictKeys supp_wind45).Nodup := by
    simp [supp_wind45, dictKeys]
  exact ⟨(C10_smart_merge_union_frame base_two supp_wind45 hnd).1 "temp",
    (C10_smart_merge_union_frame base_two supp_wind45 hnd).2 "temp"
      (by with_unfolding_all rfl)⟩

/-- When every queried station fails or carries a null temperature, the
station scan yields nothing. -/
theorem nws_first_observation_none (env : NWSEnv) (l : List String)
    (h : ∀ s ∈ l, ∀ raw, env.observation s = some raw →
      raw.temperature = none) :
    nws_first_observation env l = none := by
  induction l with
  | nil => rfl
  | cons s rest ih =>
    unfold nws_first_observation
    cases hobs : env.observation s with
    | none =>
      simp only [Option.bind]
      exact ih (fun t ht raw hr => h t (List.mem_cons_of_mem s ht) raw hr)
    | some raw =>
      have htemp : raw.temperature = none :=
        h s (List.mem_cons_self s rest) raw hobs
      simp only [Option.bind, parse_observation, htemp]
      exact ih (fun t ht raw hr => h t (List.mem_cons_of_mem s ht) raw hr)

/-- `NWSClient.get_weather` reports overall failure — not an empty
snapshot — when every station observation has a null temperature. -/
theorem nws_all_null_temperature (env : NWSEnv)
    (h : ∀ s ∈ env.stations, ∀ raw, env.observation s = some raw →
      raw.temperature = none) :
    nws_get_weather env = none := by
  unfold nws_get_weather
  cases env.gridpoint with
  | none => rfl
  | some hd =>
    cases hd with
    | none => rfl
    | some url =>
      by_cases hu : url = ""
      · simp [hu]
      · by_cases hs : env.stations = []
        · simp [hu, hs]
        · simp only [hu, hs, if_false]
          exact nws_first_observation_none env env.stations h

/-- C3 — Failure containment and fallback of
`WeatherService.get_weather`: the call always returns (never an
exception); a domestic point whose NWS lookup fails — in particular when
every station returns a null temperature — falls back to the Open-Meteo
result; an NWS success returns a snapshot no matter how the supplemental
fetch ends (including an escaping exception); and the call returns null
exactly when Open-Meteo yields nothing and either the point is
international or NWS also yielded nothing. -/
theorem C3_failure_containment_and_fallback (env : ServiceEnv)
    (lat lon : ℚ) :
    (∃ r, service_get_weather env lat lon = .ok r) ∧
    (is_us_location lat lon = true → nws_get_weather env.nwsEnv = none →
      service_get_weather env lat lon = .ok env.openMeteo) ∧
    (∀ d, is_us_location lat lon = true →
      nws_get_weather env.nwsEnv = some d →
      ∃ x, service_get_weather env lat lon = .ok (some x)) ∧
    ((∀ s ∈ env.nwsEnv.stations, ∀ raw,
        env.nwsEnv.observation s = some raw → raw.temperature = none) →
      nws_get_weather env.nwsEnv = none) ∧
    (service_get_weather env lat lon = .ok none ↔
      (env.openMeteo = none ∧
        (is_us_location lat lon = false ∨
          nws_get_weather env.nwsEnv = none))) := by
  refine ⟨?_, ?_, ?_, nws_all_null_temperature env.nwsEnv, ?_⟩
  · unfold service_get_weather
    by_cases h : is_us_location lat lon
    · simp only [h, if_true]
      cases hn : nws_get_weather env.nwsEnv
      · exact ⟨env.openMeteo, rfl⟩
      · exact ⟨_, rfl⟩
    · simp only [h, Bool.false_eq_true, if_false]
      exact ⟨env.openMeteo, rfl⟩
  · intro hus hn
    unfold service_get_weather
    rw [if_pos hus, hn]
  · intro d hus hn
    unfold service_get_weather
    rw [if_pos hus, hn]
    exact ⟨_, rfl⟩
  · unfold service_get_weather
    by_cases h : is_us_location lat lon
    · simp only [h, if_true]
      cases hn : nws_get_weather env.nwsEnv with
      | none => simp [hn]
      | some d => simp [hn]
    · have h' : is_us_location lat lon = false := by simpa using h
      simp [h']

/-- Witness for C3 at a concrete domestic coordinate and environment:
with every station reporting a null temperature and the supplemental
fetch raising, the call falls back to the Open-Meteo snapshot. -/
theorem C3_failure_containment_and_fallback_witness :
    service_get_weather env_null_temp 44.89 (-93.02) =
      .ok env_null_temp.openMeteo :=
  (C3_failure_containment_and_fallback env_null_temp 44.89 (-93.02)).2.1
    (by with_unfolding_all rfl)
    ((C3_failure_containment_and_fallback env_null_temp 44.89
        (-93.02)).2.2.2.1
      (fun s _ raw hr => by
        injection hr with hh
        rw [← hh]))

/-- Saving stamps the metadata of the saved key with the write clock. -/
theorem metaGet_save (st : GFSState) (k : CacheKey) (d : Dict) (T : ℚ) :
    metaGet (save_to_cache st k d T) k = some T := by
  simp [metaGet, save_to_cache, List.find?]

/-- Saving stores the payload under the saved key. -/
theorem storeGet_save (st : GFSState) (k : CacheKey) (d : Dict) (T : ℚ) :
    storeGet (save_to_cache st k d T) k = some d := by
  simp [storeGet, save_to_cache, List.find?]

/-- After a single save into an empty cache, other keys have no
metadata. -/
theorem metaGet_save_empty_ne (k k' : CacheKey) (d : Dict) (T : ℚ)
    (h : k' ≠ k) : metaGet (save_to_cache emptyGFS k d T) k' = none := by
  have hb : (k == k') = false := beq_eq_false_iff_ne.mpr (Ne.symm h)
  simp [metaGet, save_to_cache, emptyGFS, List.find?, hb]

/-- C8 (amended) — Grid cache validity window: an entry written at `T` is
considered valid at a read clock `Tr` iff `Tr - T < 6 h` (strictly — the
boundary instant `T + 6 h` is invalid, as is `T + 6 h + ε` for every
`ε > 0`); a read that computes the same cache key inside the window
returns the cached payload with no network call; and any read at or past
`T + 6 h` takes the fetch path.  (Within the window a read that computes
a *different* cache key — the model cycle rolled over — refetches; see
the counterexample.) -/
theorem C8_cache_validity_window (st0 : GFSState) (k : CacheKey) (d : Dict)
    (T : ℚ) :
    (∀ Tr, is_cache_valid (save_to_cache st0 k d T) k Tr = true ↔
      Tr - T < 21600) ∧
    is_cache_valid (save_to_cache st0 k d T) k (T + 21600) = false ∧
    (∀ ε : ℚ, 0 < ε →
      is_cache_valid (save_to_cache st0 k d T) k (T + 21600 + ε) = false) ∧
    (∀ (lat lon Tr : ℚ) (f1 f2 : Option (Option Dict)),
      get_cache_key lat lon Tr = k → Tr - T < 21600 → d ≠ [] →
      get_supplemental_data (save_to_cache st0 k d T) lat lon Tr f1 f2 =
        { data := some d, networkCalled := false,
          state := save_to_cache st0 k d T }) ∧
    (∀ (lat lon Tr : ℚ) (f1 f2 : Option (Option Dict)),
      21600 ≤ Tr - T →
      (get_supplemental_data (save_to_cache emptyGFS k d T) lat lon Tr
        f1 f2).networkCalled = true) := by
  have hvalid : ∀ Tr, is_cache_valid (save_to_cache st0 k d T) k Tr = true ↔
      Tr - T < 21600 := by
    intro Tr
    unfold is_cache_valid
    rw [metaGet_save]
    simp only [decide_eq_true_eq]
    norm_num
  refine ⟨hvalid, ?_, ?_, ?_, ?_⟩
  · have hx := (hvalid (T + 21600)).not
    simp only [Bool.not_eq_true] at hx
    apply hx.mpr
    norm_num
  · intro ε hε
    have hx := (hvalid (T + 21600 + ε)).not
    simp only [Bool.not_eq_true] at hx
    apply hx.mpr
    norm_num
    linarith
  · intro lat lon Tr f1 f2 hk hT hd
    unfold get_supplemental_data
    rw [hk]
    simp [(hvalid Tr).mpr hT, storeGet_save, hd]
  · intro lat lon Tr f1 f2 hT
    unfold get_supplemental_data
    by_cases hk : get_cache_key lat lon Tr = k
    · rw [hk]
      have hinv : is_cache_valid (save_to_cache emptyGFS k d T) k Tr
          = false := by
        unfold is_cache_valid
        rw [metaGet_save]
        simp only [decide_eq_false_iff_not, not_lt]
        norm_num
        linarith
      simp only [hinv, Bool.false_eq_true, if_false]
      rcases f1 with _ | p1
      · rcases f2 with _ | p2
        · rfl
        · rcases p2 with _ | d2 <;> rfl
      · rcases p1 with _ | d1 <;> rfl
    · have hnone : metaGet (save_to_cache emptyGFS k d T)
          (get_cache_key lat lon Tr) = none :=
        metaGet_save_empty_ne k _ d T hk
      have hinv : is_cache_valid (save_to_cache emptyGFS k d T)
          (get_cache_key lat lon Tr) Tr = false := by
        unfold is_cache_valid
        rw [hnone]
      simp only [hinv, Bool.false_eq_true, if_false]
      rcases f1 with _ | p1
      · rcases f2 with _ | p2
        · rfl
        · rcases p2 with _ | d2 <;> rfl
      · rcases p1 with _ | d1 <;> rfl

set_option maxRecDepth 1000000 in
/-- Witness for C8 at concrete inputs: a same-cycle read 30 s after the
write returns the cached payload without a network call, and the entry is
invalid at exactly the 6 h boundary. -/
theorem C8_cache_validity_window_witness :
    get_supplemental_data
        (save_to_cache emptyGFS (get_cache_key 44.89 (-93.02) c8_T)
          c8_payload c8_T) 44.89 (-93.02) (c8_T + 30) none none =
      { data := some c8_payload, networkCalled := false,
        state := save_to_cache emptyGFS (get_cache_key 44.89 (-93.02) c8_T)
          c8_payload c8_T } ∧
    is_cache_valid
      (save_to_cache emptyGFS (get_cache_key 44.89 (-93.02) c8_T)
        c8_payload c8_T)
      (get_cache_key 44.89 (-93.02) c8_T) (c8_T + 21600) = false :=
  ⟨(C8_cache_validity_window emptyGFS (get_cache_key 44.89 (-93.02) c8_T)
      c8_payload c8_T).2.2.2.1 44.89 (-93.02) (c8_T + 30) none none
      (by with_unfolding_all rfl) (by norm_num [c8_T])
      (by simp [c8_payload]),
   (C8_cache_validity_window emptyGFS (get_cache_key 44.89 (-93.02) c8_T)
      c8_payload c8_T).2.1⟩

set_option maxRecDepth 1000000 in
/-- C8 — counterexample to "returned without any network call for every
read before `T + 6 h`": the entry written at 09:59:00 is 120 s old at
10:01:00 — well inside its 6 h validity — but the read computes the next
model cycle's cache key, misses the cache and takes the fetch path. -/
theorem C8_cycle_boundary_counterexample :
    c8_T2 - c8_T = 120 ∧
    get_cache_key 44.89 (-93.02) c8_T ≠ get_cache_key 44.89 (-93.02) c8_T2 ∧
    (get_supplemental_data
        (save_to_cache emptyGFS (get_cache_key 44.89 (-93.02) c8_T)
          c8_payload c8_T)
        44.89 (-93.02) c8_T2 (some (some c8_payload)) none).networkCalled =
      true := by
  refine ⟨by with_unfolding_all rfl, by with_unfolding_all decide,
    by with_unfolding_all rfl⟩

/-- A guarded singleton branch contributes to `any` exactly its guard and
predicate. -/
theorem any_branch (c : Prop) [Decidable c] (e : WeatherEvent)
    (p : WeatherEvent → Bool) :
    (if c then [e] else []).any p = (decide c && p e) := by
  split <;> simp_all

/-- Grounding of `fires_heatwave` in `check_for_events`: with no alerts
and no active heatwave, the call creates a HEATWAVE event exactly when
`fires_heatwave` holds of the dwell timer and clock. -/
theorem heatwave_branch_grounding (m : WeatherEventManager) (gs : GameState)
    (now rand : ℚ) (halerts : gs.alerts = [])
    (hna : m.has_active_event .HEATWAVE = false) :
    (m.check_for_events gs now rand).new_events.any
        (fun e => e.event_type == .HEATWAVE) =
      fires_heatwave gs m.heatwave_start_time now m.frequency_multiplier := by
  have b1 : (EventType.THUNDERSTORM == EventType.HEATWAVE) = false := rfl
  have b3 : (EventType.BLIZZARD == EventType.HEATWAVE) = false := rfl
  have b4 : (EventType.WINDSTORM == EventType.HEATWAVE) = false := rfl
  have b5 : (EventType.DROUGHT == EventType.HEATWAVE) = false := rfl
  have b6 : (EventType.DUST_STORM == EventType.HEATWAVE) = false := rfl
  have b7 : (EventType.FOG == EventType.HEATWAVE) = false := rfl
  have b8 : (EventType.TORNADO_WARNING == EventType.HEATWAVE) = false := rfl
  have b9 : (EventType.HURRICANE == EventType.HEATWAVE) = false := rfl
  have b10 : (EventType.COLD_SNAP == EventType.HEATWAVE) = false := rfl
  have b11 : (EventType.FLASH_FLOOD == EventType.HEATWAVE) = false := rfl
  have b12 : (EventType.AURORA == EventType.HEATWAVE) = false := rfl
  have b2 : (EventType.HEATWAVE == EventType.HEATWAVE) = true := rfl
  unfold WeatherEventManager.check_for_events
  simp only [halerts, List.filterMap_nil, List.nil_append, List.any_append,
    any_branch, create_thunderstorm, create_heatwave, create_blizzard,
    create_windstorm, create_drought, create_dust_storm, create_fog,
    create_tornado_warning, create_hurricane, create_cold_snap,
    create_flash_flood, create_aurora, b1, b2, b3, b4, b5, b6, b7, b8, b9,
    b10, b11, b12, Bool.and_false, Bool.false_or, Bool.or_false]
  split_ifs <;>
    simp_all [fires_heatwave, one_div,
      (show (EventType.COLD_SNAP == EventType.HEATWAVE) = false from rfl),
      decide_eq_false_iff_not]



/-- Grounding of `fires_cold_snap` in `check_for_events`: with no alerts
and no active cold snap, the call creates a COLD_SNAP event exactly when
`fires_cold_snap` holds of the dwell timer and clock. -/
theorem cold_snap_branch_grounding (m : WeatherEventManager) (gs : GameState)
    (now rand : ℚ) (halerts : gs.alerts = [])
    (hna : m.has_active_event .COLD_SNAP = false) :
    (m.check_for_events gs now rand).new_events.any
        (fun e => e.event_type == .COLD_SNAP) =
      fires_cold_snap gs m.cold_start_time now m.frequency_multiplier := by
  have b1 : (EventType.THUNDERSTORM == EventType.COLD_SNAP) = false := rfl
  have b2 : (EventType.HEATWAVE == EventType.COLD_SNAP) = false := rfl
  have b3 : (EventType.BLIZZARD == EventType.COLD_SNAP) = false := rfl
  have b4 : (EventType.WINDSTORM == EventType.COLD_SNAP) = false := rfl
  have b5 : (EventType.DROUGHT == EventType.COLD_SNAP) = false := rfl
  have b6 : (EventType.DUST_STORM == EventType.COLD_SNAP) = false := rfl
  have b7 : (EventType.FOG == EventType.COLD_SNAP) = false := rfl
  have b8 : (EventType.TORNADO_WARNING == EventType.COLD_SNAP) = false := rfl
  have b9 : (EventType.HURRICANE == EventType.COLD_SNAP) = false := rfl
  have b10 : (EventType.COLD_SNAP == EventType.COLD_SNAP) = true := rfl
  have b11 : (EventType.FLASH_FLOOD == EventType.COLD_SNAP) = false := rfl
  have b12 : (EventType.AURORA == EventType.COLD_SNAP) = false := rfl
  unfold WeatherEventManager.check_for_events
  simp only [halerts, List.filterMap_nil, List.nil_append, List.any_append,
    any_branch, create_thunderstorm, create_heatwave, create_blizzard,
    create_windstorm, create_drought, create_dust_storm, create_fog,
    create_tornado_warning, create_hurricane, create_cold_snap,
    create_flash_flood, create_aurora, b1, b2, b3, b4, b5, b6, b7, b8, b9,
    b10, b11, b12, Bool.and_false, Bool.false_or, Bool.or_false]
  split_ifs <;>
    simp_all [fires_cold_snap, one_div,
      (show (EventType.HEATWAVE == EventType.COLD_SNAP) = false from rfl),
      decide_eq_false_iff_not]

end AtmosphericHarvester
